import Mathlib

/-!
Shallow embedding of `src/open/bosminer/src/hal.rs` (the hardware abstraction
core of the bosminer mining controller) and proofs of its specified properties.

Modelling conventions:
* Rust machine integers (`u32`, `u16`, `usize`) are modelled as `Nat`; the only
  place where fixed-width behaviour matters is `time_offset`, where the Rust
  code uses `u32::checked_sub` (modelled exactly) and an explicit `assert!`
  bound of `u16::max_value() = 65535` before the `as u16` cast, so no silent
  wrap-around is ever reachable in the source either.
* A Rust panic (`expect`, `assert!`, out-of-bounds `Vec` indexing,
  `unbounded_send(..).expect(..)`) is modelled by the `RustResult.crash msg`
  constructor: an abnormal process-level termination carrying the panic
  message.  A recoverable error would instead be an `Except`-style value; the
  functions of `hal.rs` have no such return type, every failure there is a
  panic.
* Byte buffers (`[u8; 32]`, `Hash::into_inner()`) are `List Nat` of length 32.
-/

/-- Result of running a piece of Rust code that may panic: `ok a` is a normal
return, `crash msg` models a Rust panic with the given message (the real
messages of bounds-check panics also embed the offending index; only the
stable prefix is kept here). -/
inductive RustResult (α : Type) where
  | ok (a : α) : RustResult α
  | crash (msg : String) : RustResult α
deriving Repr, DecidableEq

/-- True exactly on a normal (non-panicking) result. -/
def RustResult.isOk {α : Type} : RustResult α → Bool
  | .ok _ => true
  | .crash _ => false

/-- Checked subtraction on `u32` values: `a.checked_sub b` is `none` exactly
when the subtraction would underflow (`a < b`), else `some (a - b)`. -/
def u32_checked_sub (a b : Nat) : Option Nat :=
  if b ≤ a then some (a - b) else none

/-- The `BitcoinJob` trait of `hal.rs` (lines 15-33): the seven block-header
accessors every protocol job must provide.  `max_time` is a default method
returning `self.time()`; an implementation that does not override it inherits
exactly that default, which the structure default value mirrors. -/
structure BitcoinJob where
  version : Nat
  version_mask : Nat
  previous_hash : List Nat
  merkle_root : List Nat
  time : Nat
  bits : Nat
  max_time : Nat := time

/-- Modelled from the spec: a concrete protocol job type ("protocol-specific
implementations" of the Job interface live in the upstream protocol clients,
outside `src/`).  It carries the interface accessor values plus a
protocol-specific field (the spec names `extranonce` as an example). -/
structure StratumJob where
  header : BitcoinJob
  extranonce : Nat


/-- Modelled from the spec: a second, unrelated concrete protocol job type,
used to exercise the failing direction of the checked downcast. -/
structure GetworkJob where
  header : BitcoinJob


/-- A type-erased `Arc<dyn BitcoinJob>`: the stored job is one of the concrete
protocol job types, its concrete type hidden behind the interface and
recoverable only through a checked downcast (`downcast_rs`). -/
inductive DynJob where
  | stratum (j : StratumJob) : DynJob
  | getwork (j : GetworkJob) : DynJob


/-- The interface view of an erased job: dispatch to the concrete type's
accessor record. -/
def DynJob.header : DynJob → BitcoinJob
  | .stratum j => j.header
  | .getwork j => j.header

/-- Checked downcast `downcast_ref::<StratumJob>()`: succeeds exactly when the
erased job's concrete type is `StratumJob`. -/
def DynJob.downcastStratum : DynJob → Option StratumJob
  | .stratum j => some j
  | _ => none

/-- Checked downcast `downcast_ref::<GetworkJob>()`: succeeds exactly when the
erased job's concrete type is `GetworkJob`. -/
def DynJob.downcastGetwork : DynJob → Option GetworkJob
  | .getwork j => some j
  | _ => none

/-- `Midstate` (hal.rs lines 37-42): version used for the midstate plus the
32-byte internal SHA256 state. -/
structure Midstate where
  version : Nat
  state : List Nat

/-- `MiningWork` (hal.rs lines 53-60): shared job, midstates, starting nTime. -/
structure MiningWork where
  job : DynJob
  midstates : List Midstate
  ntime : Nat

/-- Byte order parameter `T: ByteOrder` of `merkel_root_lsw`. -/
inductive ByteOrd where
  | le
  | be
deriving Repr, DecidableEq

/-- The byteorder crate's `T::read_u32(buf)`: reads the first four bytes of
`buf` as a `u32` in the given byte order and panics when fewer than four bytes
are available. -/
def ByteOrd.read_u32 : ByteOrd → List Nat → RustResult Nat
  | .le, b0 :: b1 :: b2 :: b3 :: _ =>
      .ok (b0 + 2 ^ 8 * b1 + 2 ^ 16 * b2 + 2 ^ 24 * b3)
  | .be, b0 :: b1 :: b2 :: b3 :: _ =>
      .ok (b3 + 2 ^ 8 * b2 + 2 ^ 16 * b1 + 2 ^ 24 * b0)
  | _, _ => .crash "failed to fill whole buffer"

/-- `MiningWork::merkel_root_lsw` (hal.rs lines 64-67): take the job's 32-byte
merkle root (`into_inner()` yields the raw on-wire bytes) and read its last
four bytes as a `u32` in the requested byte order. -/
def MiningWork.merkel_root_lsw (w : MiningWork) (t : ByteOrd) : RustResult Nat :=
  let bytes := w.job.header.merkle_root
  t.read_u32 (bytes.drop (bytes.length - 4))

/-- `MiningWork::bits` (hal.rs lines 71-73). -/
def MiningWork.bits (w : MiningWork) : Nat :=
  w.job.header.bits

/-- `MiningWorkSolution` (hal.rs lines 78-87): the raw hardware solution. -/
structure MiningWorkSolution where
  nonce : Nat
  ntime : Option Nat
  midstate_idx : Nat
  solution_id : Nat

/-- `UniqueMiningWorkSolution` (hal.rs lines 92-99): work and its solution,
with the capture timestamp (modelled as a plain number; none of its
properties are used here). -/
structure UniqueMiningWorkSolution where
  timestamp : Nat
  work : MiningWork
  solution : MiningWorkSolution

/-- `UniqueMiningWorkSolution::job::<StratumJob>()` (hal.rs lines 102-107):
checked downcast of the stored job, panicking via
`expect("cannot downcast to original job")` when the concrete type differs. -/
def UniqueMiningWorkSolution.jobStratum
    (u : UniqueMiningWorkSolution) : RustResult StratumJob :=
  match u.work.job.downcastStratum with
  | some j => .ok j
  | none => .crash "cannot downcast to original job"

/-- `UniqueMiningWorkSolution::job::<GetworkJob>()` — the same accessor
instantiated at the other concrete type. -/
def UniqueMiningWorkSolution.jobGetwork
    (u : UniqueMiningWorkSolution) : RustResult GetworkJob :=
  match u.work.job.downcastGetwork with
  | some j => .ok j
  | none => .crash "cannot downcast to original job"

/-- `UniqueMiningWorkSolution::nonce` (hal.rs lines 110-112). -/
def UniqueMiningWorkSolution.nonce (u : UniqueMiningWorkSolution) : Nat :=
  u.solution.nonce

/-- `UniqueMiningWorkSolution::time` (hal.rs lines 115-121): the solution's
rolled nTime when present, else the work's starting nTime. -/
def UniqueMiningWorkSolution.time (u : UniqueMiningWorkSolution) : Nat :=
  match u.solution.ntime with
  | some t => t
  | none => u.work.ntime

/-- `UniqueMiningWorkSolution::time_offset` (hal.rs lines 124-131):
`time() - job.time()` via `u32::checked_sub` with
`expect("job time offset overflow")` on underflow, then
`assert!(offset <= u16::max_value().into())` before the `as u16` cast. -/
def UniqueMiningWorkSolution.time_offset
    (u : UniqueMiningWorkSolution) : RustResult Nat :=
  let job_time := u.work.job.header.time
  match u32_checked_sub u.time job_time with
  | none => .crash "job time offset overflow"
  | some offset =>
      if offset ≤ 65535 then .ok offset
      else .crash "assertion failed: offset <= u16::max_value().into()"

/-- `UniqueMiningWorkSolution::version` (hal.rs lines 134-137):
`self.work.midstates[i].version` with Rust's bounds-checked `Vec` indexing,
which panics on an out-of-range index. -/
def UniqueMiningWorkSolution.version
    (u : UniqueMiningWorkSolution) : RustResult Nat :=
  match u.work.midstates.get? u.solution.midstate_idx with
  | some m => .ok m.version
  | none => .crash "index out of bounds"

/-- `MiningStats` (hal.rs lines 141-155): the five hardware statistics
counters (`work_generated` is `usize`, the rest `u64`). -/
structure MiningStats where
  work_generated : Nat
  stale_solutions : Nat
  duplicate_solutions : Nat
  mismatched_solution_nonces : Nat
  unique_solutions : Nat
deriving Repr, DecidableEq

/-- `MiningStats::new` (hal.rs lines 158-166). -/
def MiningStats.new : MiningStats :=
  { work_generated := 0
    stale_solutions := 0
    duplicate_solutions := 0
    mismatched_solution_nonces := 0
    unique_solutions := 0 }

/-- `ShutdownMsg` (hal.rs line 170): a static reason string. -/
abbrev ShutdownMsg := String

/-- State of the `futures::sync::mpsc::unbounded` channel behind the shutdown
messenger: the FIFO queue of undelivered messages, the number of live sender
handles, and whether the receiver is still alive (the futures 0.1 unbounded
channel delivers queued messages in send order; `unbounded_send` fails exactly
when the receiver has been dropped). -/
structure Channel where
  queue : List ShutdownMsg
  senders : Nat
  receiverAlive : Bool
deriving Repr, DecidableEq

/-- `Shutdown::new` (hal.rs lines 203-206): a fresh channel with one sender
handle, a live receiver, and nothing queued. -/
def Shutdown.new : Channel :=
  { queue := [], senders := 1, receiverAlive := true }

/-- Dropping a sender handle (e.g. a hardware-driving context terminating). -/
def Channel.dropSender (c : Channel) : Channel :=
  { c with senders := c.senders - 1 }

/-- `ShutdownSender::send` (hal.rs lines 177-179): `unbounded_send` enqueues
the message without blocking and fails only when the receiver is gone, in
which case the `expect("send failed")` panics. -/
def ShutdownSender.send (c : Channel) (msg : ShutdownMsg) : RustResult Channel :=
  if c.receiverAlive then .ok { c with queue := c.queue ++ [msg] }
  else .crash "send failed"

/-- One resolved step of `Stream::next` on the unbounded receiver:
`none` means the await stays pending (nothing queued, senders still alive);
`some (reply, c)` means the await resolves with `reply` leaving channel `c`.
The stream yields queued messages first-in first-out and ends (`reply = none`)
once the queue is empty and every sender handle is dropped. -/
def Channel.streamNext (c : Channel) :
    Option (Option (Except Unit ShutdownMsg) × Channel) :=
  match c.queue with
  | m :: rest => some (some (.ok m), { c with queue := rest })
  | [] => if c.senders = 0 then some (none, c) else none

/-- The match arms of `ShutdownReceiver::receive` (hal.rs lines 190-194):
how a resolved `next()` reply is turned into the delivered reason. -/
def ShutdownReceiver.resolve : Option (Except Unit ShutdownMsg) → ShutdownMsg
  | none => "all hchains died"
  | some (.error _) => "unexpected error when receiving shutdown message"
  | some (.ok m) => m

/-- `ShutdownReceiver::receive` (hal.rs lines 186-196): awaits the next stream
item (resolving only when `streamNext` is ready) and maps it through the match
of the source.  `none` means the receive suspends. -/
def ShutdownReceiver.receive (c : Channel) : Option (ShutdownMsg × Channel) :=
  (c.streamNext).map (fun p => (ShutdownReceiver.resolve p.1, p.2))

/-- C10: `MiningStats::new()` returns a record in which all five counters —
work_generated, stale_solutions, duplicate_solutions,
mismatched_solution_nonces and unique_solutions — are exactly zero. -/
theorem miningStats_new_all_zero :
    MiningStats.new.work_generated = 0 ∧
    MiningStats.new.stale_solutions = 0 ∧
    MiningStats.new.duplicate_solutions = 0 ∧
    MiningStats.new.mismatched_solution_nonces = 0 ∧
    MiningStats.new.unique_solutions = 0 := by
  refine ⟨rfl, rfl, rfl, rfl, rfl⟩

/-- C9: any implementation of the `BitcoinJob` interface that does not
override `max_time` (i.e. inherits the trait's default body) has
`max_time() = time()`, whatever its other accessor values are. -/
theorem bitcoinJob_max_time_default
    (v vm : Nat) (ph mr : List Nat) (t b : Nat) :
    ({ version := v, version_mask := vm, previous_hash := ph,
       merkle_root := mr, time := t, bits := b } : BitcoinJob).max_time =
      ({ version := v, version_mask := vm, previous_hash := ph,
         merkle_root := mr, time := t, bits := b } : BitcoinJob).time := rfl

/-- A concrete 32-byte merkle root fixture: 28 zero bytes then 17, 34, 51, 68. -/
def sampleRoot : List Nat :=
  List.replicate 28 0 ++ [17, 34, 51, 68]

/-- A concrete job header fixture. -/
def sampleHeader : BitcoinJob :=
  { version := 2, version_mask := 536805376, previous_hash := List.replicate 32 0,
    merkle_root := sampleRoot, time := 40, bits := 100 }

/-- A concrete stratum-protocol job fixture. -/
def sampleStratum : StratumJob :=
  { header := sampleHeader, extranonce := 7 }

/-- A concrete work fixture with two midstates (versions 11 and 22). -/
def sampleWork : MiningWork :=
  { job := DynJob.stratum sampleStratum,
    midstates := [{ version := 11, state := List.replicate 32 0 },
                  { version := 22, state := List.replicate 32 0 }],
    ntime := 100 }

/-- A raw solution fixture with a rolled nTime of 90 and midstate index 0. -/
def sampleSolution : MiningWorkSolution :=
  { nonce := 5, ntime := some 90, midstate_idx := 0, solution_id := 1 }

/-- A correlated solution fixture (rolled nTime present). -/
def sampleUnique : UniqueMiningWorkSolution :=
  { timestamp := 0, work := sampleWork, solution := sampleSolution }

/-- A correlated solution fixture without a rolled nTime. -/
def sampleUniqueNone : UniqueMiningWorkSolution :=
  { timestamp := 0, work := sampleWork,
    solution := { nonce := 5, ntime := none, midstate_idx := 1, solution_id := 2 } }

/-- A correlated solution fixture whose midstate index 2 is out of range for
the two midstates of `sampleWork`. -/
def sampleOutOfRange : UniqueMiningWorkSolution :=
  { timestamp := 0, work := sampleWork,
    solution := { nonce := 5, ntime := some 90, midstate_idx := 2, solution_id := 3 } }

/-- A work fixture whose stored job has the other concrete type. -/
def sampleGetworkWork : MiningWork :=
  { job := DynJob.getwork { header := sampleHeader },
    midstates := [{ version := 11, state := List.replicate 32 0 }],
    ntime := 100 }

/-- A correlated solution fixture over the getwork-typed job. -/
def sampleGetworkUnique : UniqueMiningWorkSolution :=
  { timestamp := 0, work := sampleGetworkWork, solution := sampleSolution }

/-- C4: for every correlated solution, time() returns the solution's ntime
when that field is present (Some), and otherwise returns the work's ntime —
both branches behave exactly this way. -/
theorem time_uses_solution_ntime_else_work_ntime (u : UniqueMiningWorkSolution) :
    (∀ t : Nat, u.solution.ntime = some t → u.time = t) ∧
    (u.solution.ntime = none → u.time = u.work.ntime) := by
  constructor
  · intro t ht
    simp [UniqueMiningWorkSolution.time, ht]
  · intro ht
    simp [UniqueMiningWorkSolution.time, ht]

/-- Witness for C4: at the fixture with a rolled nTime the accessor returns
it; at the fixture without one it returns the work's nTime. -/
theorem time_uses_solution_ntime_else_work_ntime_witness :
    sampleUnique.time = 90 ∧ sampleUniqueNone.time = sampleUniqueNone.work.ntime :=
  ⟨(time_uses_solution_ntime_else_work_ntime sampleUnique).1 90 rfl,
   (time_uses_solution_ntime_else_work_ntime sampleUniqueNone).2 rfl⟩

/-- C2: for every work with at least one midstate and every in-range index i,
a correlated solution whose raw solution carries midstate_idx = i resolves
version() to exactly midstates[i].version. -/
theorem version_resolves_to_indexed_midstate
    (ts : Nat) (w : MiningWork) (s : MiningWorkSolution)
    (h : s.midstate_idx < w.midstates.length) :
    (UniqueMiningWorkSolution.mk ts w s).version =
      RustResult.ok (w.midstates.get ⟨s.midstate_idx, h⟩).version := by
  simp [UniqueMiningWorkSolution.version, List.get?_eq_get h,
    List.getElem?_eq_getElem h]

/-- Witness for C2: the fixture's midstate index 0 resolves to the first
midstate's version 11. -/
theorem version_resolves_to_indexed_midstate_witness :
    sampleUnique.version = RustResult.ok 11 :=
  version_resolves_to_indexed_midstate 0 sampleWork sampleSolution (by decide)

/-- C1: time_offset() succeeds with the value time() - job.time() exactly when
that difference is defined (no underflow) and at most 65535; on underflow it
fails with the explicit "job time offset overflow" panic and on a too-large
offset with the explicit assertion panic — it never silently truncates. -/
theorem time_offset_succeeds_iff (u : UniqueMiningWorkSolution) :
    (u.time_offset.isOk = true ↔
      u.work.job.header.time ≤ u.time ∧
        u.time - u.work.job.header.time ≤ 65535) ∧
    (u.work.job.header.time ≤ u.time →
      u.time - u.work.job.header.time ≤ 65535 →
      u.time_offset = RustResult.ok (u.time - u.work.job.header.time)) ∧
    (u.time < u.work.job.header.time →
      u.time_offset = RustResult.crash "job time offset overflow") ∧
    (65535 < u.time - u.work.job.header.time →
      u.time_offset =
        RustResult.crash "assertion failed: offset <= u16::max_value().into()") := by
  by_cases hle : u.work.job.header.time ≤ u.time
  · by_cases hb : u.time - u.work.job.header.time ≤ 65535
    · have heq : u.time_offset = RustResult.ok (u.time - u.work.job.header.time) := by
        simp [UniqueMiningWorkSolution.time_offset, u32_checked_sub, hle, hb]
      refine ⟨?_, fun _ _ => heq, fun hlt => by omega, fun hgt => by omega⟩
      simp [heq, RustResult.isOk, hle, hb]
    · have heq : u.time_offset =
          RustResult.crash "assertion failed: offset <= u16::max_value().into()" := by
        simp [UniqueMiningWorkSolution.time_offset, u32_checked_sub, hle, hb]
      refine ⟨?_, fun _ hb2 => absurd hb2 hb, fun hlt => by omega, fun _ => heq⟩
      simp [heq, RustResult.isOk, hb]
  · have heq : u.time_offset = RustResult.crash "job time offset overflow" := by
      simp [UniqueMiningWorkSolution.time_offset, u32_checked_sub, hle]
    refine ⟨?_, fun hle2 _ => absurd hle2 hle, fun _ => heq, fun hgt => by omega⟩
    simp [heq, RustResult.isOk, hle]

/-- Witness for C1: at the fixture (solution time 90, job time 40) the offset
is within the 16-bit range and time_offset returns 50. -/
theorem time_offset_succeeds_iff_witness :
    sampleUnique.time_offset = RustResult.ok 50 := by
  have h := (time_offset_succeeds_iff sampleUnique).2.1 (by decide) (by decide)
  simpa using h

/-- Counterexample for C3: the claim says an out-of-range midstate index makes
version() fail with an out-of-range error and "never panics"; in the source
the access is Rust's bounds-checked Vec indexing, which fails precisely by
panicking.  At this concrete input (two midstates, index 2) version() is a
crash — a Rust panic — and not a normal return. -/
theorem version_out_of_range_cex :
    sampleOutOfRange.version = RustResult.crash "index out of bounds" ∧
    sampleOutOfRange.version.isOk = false :=
  ⟨rfl, rfl⟩

/-- C3 amended: for every correlated solution whose midstate_idx is at least
len(midstates), version() fails loudly with the index-out-of-bounds panic of
the bounds-checked access; no out-of-bounds read occurs — but the failure is
a panic, not a recoverable out-of-range error. -/
theorem version_out_of_range_crashes
    (u : UniqueMiningWorkSolution)
    (h : u.work.midstates.length ≤ u.solution.midstate_idx) :
    u.version = RustResult.crash "index out of bounds" := by
  simp [UniqueMiningWorkSolution.version, List.get?_eq_none.mpr h,
    List.getElem?_eq_none h]

/-- Witness for the amended C3 at the concrete out-of-range fixture. -/
theorem version_out_of_range_crashes_witness :
    sampleOutOfRange.version = RustResult.crash "index out of bounds" :=
  version_out_of_range_crashes sampleOutOfRange (by decide)

/-- C5: merkel_root_lsw reads exactly the last 4 bytes of the job's 32-byte
merkle root (in its on-wire byte order) and returns them interpreted as a
u32 in the requested byte order, little- or big-endian. -/
theorem merkel_root_lsw_reads_last_four
    (w : MiningWork) (front : List Nat) (b28 b29 b30 b31 : Nat)
    (hf : front.length = 28)
    (hroot : w.job.header.merkle_root = front ++ [b28, b29, b30, b31]) :
    w.merkel_root_lsw ByteOrd.le =
        RustResult.ok (b28 + 2 ^ 8 * b29 + 2 ^ 16 * b30 + 2 ^ 24 * b31) ∧
    w.merkel_root_lsw ByteOrd.be =
        RustResult.ok (b31 + 2 ^ 8 * b30 + 2 ^ 16 * b29 + 2 ^ 24 * b28) := by
  have hlen : w.job.header.merkle_root.length = 32 := by
    simp [hroot, hf]
  have hdrop :
      w.job.header.merkle_root.drop (w.job.header.merkle_root.length - 4) =
        [b28, b29, b30, b31] := by
    rw [hroot]
    have hl : (front ++ [b28, b29, b30, b31]).length - 4 = front.length := by
      simp [hf]
    rw [hl]
    exact List.drop_left front _
  constructor <;>
    simp [MiningWork.merkel_root_lsw, hdrop, ByteOrd.read_u32]

/-- Witness for C5: on the fixture root ending in bytes 17, 34, 51, 68 the
little-endian word is 1144201745 (0x44332211) and the big-endian word is
287454020 (0x11223344). -/
theorem merkel_root_lsw_reads_last_four_witness :
    sampleWork.merkel_root_lsw ByteOrd.le = RustResult.ok 1144201745 ∧
    sampleWork.merkel_root_lsw ByteOrd.be = RustResult.ok 287454020 := by
  have h := merkel_root_lsw_reads_last_four sampleWork
    (List.replicate 28 0) 17 34 51 68 (by simp) rfl
  exact ⟨h.1, h.2⟩

/-- C6: shutdown channel behaviour: (1) exactly one send before the receive
delivers exactly that reason; (2) when every sender handle is dropped without
sending, receive() still resolves, with the "all hchains died" sentinel,
rather than suspending forever; (3) a transport error on the channel resolves
with a distinct sentinel reason; (4) several sends before a single receive()
deliver exactly one reason — the first one sent. -/
theorem shutdown_receive_spec :
    (∀ x : ShutdownMsg,
      ShutdownSender.send Shutdown.new x =
        RustResult.ok { queue := [x], senders := 1, receiverAlive := true } ∧
      ShutdownReceiver.receive { queue := [x], senders := 1, receiverAlive := true } =
        some (x, { queue := [], senders := 1, receiverAlive := true })) ∧
    (ShutdownReceiver.receive Shutdown.new.dropSender =
      some ("all hchains died",
        { queue := [], senders := 0, receiverAlive := true })) ∧
    (ShutdownReceiver.resolve (some (Except.error ())) =
        "unexpected error when receiving shutdown message" ∧
      "unexpected error when receiving shutdown message" ≠ "all hchains died") ∧
    (∀ x y : ShutdownMsg,
      ShutdownSender.send Shutdown.new x =
        RustResult.ok { queue := [x], senders := 1, receiverAlive := true } ∧
      ShutdownSender.send { queue := [x], senders := 1, receiverAlive := true } y =
        RustResult.ok { queue := [x, y], senders := 1, receiverAlive := true } ∧
      ShutdownReceiver.receive { queue := [x, y], senders := 1, receiverAlive := true } =
        some (x, { queue := [y], senders := 1, receiverAlive := true })) := by
  refine ⟨fun x => ⟨rfl, rfl⟩, rfl, ⟨rfl, by decide⟩, fun x y => ⟨rfl, rfl, rfl⟩⟩

/-- C7: for every channel state whose receiver has not been destroyed, a send
from any sender handle (the handles are clones over the same channel) returns
normally — it neither fails nor panics — enqueueing the reason and returning
no acknowledgement. -/
theorem shutdown_send_succeeds
    (c : Channel) (msg : ShutdownMsg) (h : c.receiverAlive = true) :
    ShutdownSender.send c msg =
      RustResult.ok { c with queue := c.queue ++ [msg] } := by
  simp [ShutdownSender.send, h]

/-- Witness for C7: sending on a fresh channel (receiver alive) succeeds. -/
theorem shutdown_send_succeeds_witness :
    ShutdownSender.send Shutdown.new "power failure" =
      RustResult.ok { queue := ["power failure"], senders := 1, receiverAlive := true } :=
  shutdown_send_succeeds Shutdown.new "power failure" rfl

/-- Counterexample for C8: downcasting the stored job to an unrelated concrete
type does fail with the descriptive message, but through
`expect("cannot downcast to original job")` — a Rust panic, i.e. a
process-level abort — contradicting the claim that the failure is fatal only
to the solution being processed and not to the process: at this concrete
input the result is a crash, not a recoverable solution-local error. -/
theorem job_downcast_mismatch_cex :
    sampleGetworkUnique.jobStratum =
      RustResult.crash "cannot downcast to original job" ∧
    sampleGetworkUnique.jobStratum.isOk = false :=
  ⟨rfl, rfl⟩

/-- C8 amended: downcasting the stored job to its true concrete type succeeds
and returns the stored job itself (hence equal field values); downcasting to
an unrelated concrete type fails with the descriptive panic message
"cannot downcast to original job" — a process-level panic, not an error local
to the solution being processed. -/
theorem job_downcast_spec (u : UniqueMiningWorkSolution) :
    (∀ sj : StratumJob, u.work.job = DynJob.stratum sj →
        u.jobStratum = RustResult.ok sj) ∧
    (∀ gj : GetworkJob, u.work.job = DynJob.getwork gj →
        u.jobGetwork = RustResult.ok gj) ∧
    (∀ gj : GetworkJob, u.work.job = DynJob.getwork gj →
        u.jobStratum = RustResult.crash "cannot downcast to original job") ∧
    (∀ sj : StratumJob, u.work.job = DynJob.stratum sj →
        u.jobGetwork = RustResult.crash "cannot downcast to original job") := by
  refine ⟨?_, ?_, ?_, ?_⟩ <;> intro j hj <;>
    simp [UniqueMiningWorkSolution.jobStratum, UniqueMiningWorkSolution.jobGetwork,
      DynJob.downcastStratum, DynJob.downcastGetwork, hj]

/-- Witness for the amended C8: the stratum-typed fixture downcasts to its
stratum job, and the getwork-typed fixture crashes when downcast to stratum. -/
theorem job_downcast_spec_witness :
    sampleUnique.jobStratum = RustResult.ok sampleStratum ∧
    sampleGetworkUnique.jobStratum =
      RustResult.crash "cannot downcast to original job" :=
  ⟨(job_downcast_spec sampleUnique).1 sampleStratum rfl,
   (job_downcast_spec sampleGetworkUnique).2.2.1 { header := sampleHeader } rfl⟩
